import Mathlib

/-!
Verification of the analytical core of `health_app_py.py` (class `HealthMonitor`):
synthetic health-data generation, anomaly detection, health scoring and insight
generation. The Python code is shallowly embedded over `ℚ`:

* NumPy's seeded pseudo-random draws (`np.random.normal`, `np.random.choice`,
  `np.random.randint`) are modelled by an explicit `RandomStream` of rational
  values. With `np.random.seed(42)` hardcoded at the top of
  `generate_sample_data`, the stream consumed by each call is one and the same
  fixed stream, so theorems quantify over an arbitrary stream and the fixed
  seed corresponds to passing the same stream to each modelled call.
* `np.sin((hours - c) * np.pi / 12)` is modelled by an abstract curve
  `sinC : ℚ → ℚ` applied at `hours - c`; the claims under study never depend
  on actual values of the sine.
* `datetime.now()` is an explicit `now : ℚ` parameter (seconds).
* Fallible operations (`pandas` raising `ValueError` / `IndexError`) return
  `Except String _`.
-/

/-- `np.clip(x, lo, hi)`: `lo` if `x < lo`, `hi` if `x > hi`, else `x`
(for `lo ≤ hi` this is `min hi (max lo x)`). -/
def clipQ (lo hi x : ℚ) : ℚ := min hi (max lo x)

/-- Rounding to one decimal place, as in `pandas.Series.round(1)` and Python's
`round(x, 1)`. Modelled as round-half-up on `ℚ`; Python/NumPy use
round-half-to-even on binary floats, which differs only on exact `.x5` ties,
and no value reached by the claims sits on such a tie. -/
def round1 (x : ℚ) : ℚ := ((round (10 * x) : ℤ) : ℚ) / 10

/-- `ndarray.astype(int)`: C-style truncation toward zero. -/
def truncQ (x : ℚ) : ℤ := if 0 ≤ x then ⌊x⌋ else -⌊-x⌋

/-- One row of the generated DataFrame: a timestamp and the six numeric
health fields (all kept as `ℚ`; `heart_rate` and `steps` are integral by
construction via `truncQ`). -/
structure Sample where
  timestamp : ℚ
  heart_rate : ℚ
  blood_oxygen : ℚ
  steps : ℚ
  sleep_quality : ℚ
  stress_level : ℚ
  body_temperature : ℚ
deriving DecidableEq, Repr

/-- The six per-field domain bounds stated by the data model:
`heart_rate ∈ [50,120]`, `blood_oxygen ∈ [85,100]`, `steps ≥ 0`,
`sleep_quality ∈ [0,10]`, `stress_level ∈ [0,10]`,
`body_temperature ∈ [96,102]`. -/
def InDomain (s : Sample) : Prop :=
  50 ≤ s.heart_rate ∧ s.heart_rate ≤ 120 ∧
  85 ≤ s.blood_oxygen ∧ s.blood_oxygen ≤ 100 ∧
  0 ≤ s.steps ∧
  0 ≤ s.sleep_quality ∧ s.sleep_quality ≤ 10 ∧
  0 ≤ s.stress_level ∧ s.stress_level ≤ 10 ∧
  96 ≤ s.body_temperature ∧ s.body_temperature ≤ 102

instance (s : Sample) : Decidable (InDomain s) := by
  unfold InDomain; infer_instance

/-! ## Health scorer (`HealthMonitor.calculate_health_score`) -/

/-- `hr_score = max(0, 100 - abs(latest['heart_rate'] - 70) * 2)` -/
def hrScore (s : Sample) : ℚ := max 0 (100 - |s.heart_rate - 70| * 2)

/-- `oxygen_score = min(100, latest['blood_oxygen'] * 1.02)` -/
def oxygenScore (s : Sample) : ℚ := min 100 (s.blood_oxygen * (102 / 100))

/-- `activity_score = min(100, latest['steps'] / 10)` -/
def activityScore (s : Sample) : ℚ := min 100 (s.steps / 10)

/-- `sleep_score = latest['sleep_quality'] * 10` -/
def sleepScore (s : Sample) : ℚ := s.sleep_quality * 10

/-- `stress_score = (10 - latest['stress_level']) * 10` -/
def stressScore (s : Sample) : ℚ := (10 - s.stress_level) * 10

/-- `temp_score = max(0, 100 - abs(latest['body_temperature'] - 98.6) * 10)` -/
def tempScore (s : Sample) : ℚ := max 0 (100 - |s.body_temperature - 493 / 5| * 10)

/-- `weights = [0.2, 0.2, 0.15, 0.2, 0.15, 0.1]` -/
def weights : List ℚ := [2 / 10, 2 / 10, 15 / 100, 2 / 10, 15 / 100, 1 / 10]

/-- `scores = [hr_score, oxygen_score, activity_score, sleep_score, stress_score, temp_score]` -/
def subScores (s : Sample) : List ℚ :=
  [hrScore s, oxygenScore s, activityScore s, sleepScore s, stressScore s, tempScore s]

/-- `health_score = sum(w * s for w, s in zip(weights, scores))`, then
`round(health_score, 1)`. -/
def healthScoreOf (s : Sample) : ℚ :=
  round1 (List.zipWith (· * ·) weights (subScores s)).sum

/-- `calculate_health_score(data)`: reads `data.iloc[-1]` (raising
`IndexError` on an empty frame), then the weighted rounded score. -/
def calculate_health_score (data : List Sample) : Except String ℚ :=
  match data.getLast? with
  | none => .error "IndexError: single positional indexer is out-of-bounds"
  | some latest => .ok (healthScoreOf latest)

/-! ## Insight engine (`HealthMonitor.generate_health_insights`) -/

/-- The five rule categories, in the order the source evaluates them. -/
inductive Category where
  | heart | oxygen | activity | sleep | stress
deriving DecidableEq, Repr, Fintype

/-- Position of a category in the source's fixed evaluation order. -/
def Category.idx : Category → ℕ
  | .heart => 0
  | .oxygen => 1
  | .activity => 2
  | .sleep => 3
  | .stress => 4

/-- The ten insight strings the source can emit, one constructor per message. -/
inductive Insight where
  | hrElevated   -- "⚠️ Your heart rate is elevated. Consider relaxation techniques."
  | hrGreat      -- "💙 Your resting heart rate looks great!"
  | o2Low        -- "🫁 Blood oxygen is low. Consider consulting a healthcare provider."
  | o2Healthy    -- "✅ Blood oxygen levels are healthy."
  | actLess      -- "🚶 You have been less active today. Try a short walk!"
  | actGreat     -- "🏃 Great job staying active today!"
  | sleepPoor    -- "😴 Sleep quality could be better. Try a consistent bedtime routine."
  | sleepGreat   -- "🌙 Excellent sleep quality! Keep it up!"
  | stressHigh   -- "😰 Stress levels are high. Practice deep breathing or meditation."
  | stressOk     -- "😌 Great job managing stress!"
deriving DecidableEq, Repr

/-- The rule category each message belongs to. -/
def Insight.category : Insight → Category
  | .hrElevated => .heart
  | .hrGreat => .heart
  | .o2Low => .oxygen
  | .o2Healthy => .oxygen
  | .actLess => .activity
  | .actGreat => .activity
  | .sleepPoor => .sleep
  | .sleepGreat => .sleep
  | .stressHigh => .stress
  | .stressOk => .stress

/-- `Series.mean()`: arithmetic mean of a column. -/
def meanQ (xs : List ℚ) : ℚ := xs.sum / xs.length

/-- Heart-rate rule: `latest > avg_hr + 20` warns, `elif latest < avg_hr - 15`
praises, else silent. -/
def hrInsights (data : List Sample) (latest : Sample) : List Insight :=
  if latest.heart_rate > meanQ (data.map Sample.heart_rate) + 20 then [.hrElevated]
  else if latest.heart_rate < meanQ (data.map Sample.heart_rate) - 15 then [.hrGreat]
  else []

/-- Oxygen rule: `latest < 95` warns, else confirms (always one message). -/
def o2Insights (latest : Sample) : List Insight :=
  if latest.blood_oxygen < 95 then [.o2Low] else [.o2Healthy]

/-- Activity rule: `latest < avg_steps * 0.7` nudges,
`elif latest > avg_steps * 1.3` praises, else silent. -/
def actInsights (data : List Sample) (latest : Sample) : List Insight :=
  if latest.steps < meanQ (data.map Sample.steps) * (7 / 10) then [.actLess]
  else if latest.steps > meanQ (data.map Sample.steps) * (13 / 10) then [.actGreat]
  else []

/-- Sleep rule: `latest < 6` nudges, `elif latest > 8` praises, else silent. -/
def sleepInsights (latest : Sample) : List Insight :=
  if latest.sleep_quality < 6 then [.sleepPoor]
  else if latest.sleep_quality > 8 then [.sleepGreat]
  else []

/-- Stress rule: `latest > 7` warns, `elif latest < 4` praises, else silent. -/
def stressInsights (latest : Sample) : List Insight :=
  if latest.stress_level > 7 then [.stressHigh]
  else if latest.stress_level < 4 then [.stressOk]
  else []

/-- `generate_health_insights(data)`: reads `data.iloc[-1]` (raising
`IndexError` on an empty frame), then appends the category rules' messages in
the source's fixed order. -/
def generate_health_insights (data : List Sample) : Except String (List Insight) :=
  match data.getLast? with
  | none => .error "IndexError: single positional indexer is out-of-bounds"
  | some latest =>
    .ok (hrInsights data latest ++ o2Insights latest ++ actInsights data latest
      ++ sleepInsights latest ++ stressInsights latest)

/-! ## Signal generator (`HealthMonitor.generate_sample_data`)

`generate_sample_data(self, days=30, samples_per_day=24)` takes NO seed
parameter; it executes `np.random.seed(42)` itself, so the pseudo-random
draws are the same fixed stream on every call, modelled by passing the same
`RandomStream`. Wall-clock time enters through `end_date = datetime.now()`.
-/

/-- The sequence of seeded pseudo-random draws `generate_sample_data`
consumes, indexed by row (or by position in the selected-index list for the
outlier draws). With the hardcoded `np.random.seed(42)` every call consumes
the identical stream. -/
structure RandomStream where
  /-- `np.random.normal(0, 5, total_samples)` for heart rate. -/
  hrNoise : ℕ → ℚ
  /-- `np.random.normal(0, 1, total_samples)` for blood oxygen. -/
  o2Noise : ℕ → ℚ
  /-- `np.random.normal(0, 100, total_samples)` for steps. -/
  stepNoise : ℕ → ℚ
  /-- `np.random.normal(0, 0.5, total_samples)` for sleep quality. -/
  sleepNoise : ℕ → ℚ
  /-- `np.random.normal(0, 1, total_samples)` for stress. -/
  stressNoise : ℕ → ℚ
  /-- `np.random.normal(0, 0.5, total_samples)` for body temperature. -/
  tempNoise : ℕ → ℚ
  /-- `np.random.choice(total_samples, size=k, replace=False)`:
  given `total_samples` and `k`, the selected row indices. -/
  pick : ℕ → ℕ → List ℕ
  /-- `np.random.choice([-20, 30], size=k)`: shift for the j-th selected row. -/
  hrShift : ℕ → ℚ
  /-- `np.random.randint(5, 15, size=k)`: drop for the j-th selected row
  (NumPy's `randint` excludes the upper bound, so the support is 5..14). -/
  o2Drop : ℕ → ℕ

/-- NumPy's output contract for the draws feeding the outlier-injection step
at size `total`: `choice(total, size=k, replace=False)` returns `k` distinct
indices below `total`, `choice([-20, 30], ...)` values are −20 or 30, and
`randint(5, 15, ...)` values lie in 5..14. -/
def ValidStream (rs : RandomStream) (total : ℕ) : Prop :=
  (rs.pick total (total / 20)).length = total / 20 ∧
  (rs.pick total (total / 20)).Nodup ∧
  (∀ i ∈ rs.pick total (total / 20), i < total) ∧
  (∀ j, rs.hrShift j = -20 ∨ rs.hrShift j = 30) ∧
  (∀ j, 5 ≤ rs.o2Drop j ∧ rs.o2Drop j ≤ 14)

/-- Timestamp (in seconds) of row `i`:
`pd.date_range(start=now - days*86400, end=now, periods=N)` produces `N`
evenly spaced instants from start to end inclusive (just the start when
`N ≤ 1`). -/
def tsAt (now : ℚ) (days : ℤ) (N : ℕ) (i : ℕ) : ℚ :=
  let start := now - (days : ℚ) * 86400
  if N ≤ 1 then start
  else start + (i : ℚ) * (((days : ℚ) * 86400) / ((N : ℚ) - 1))

/-- `t.hour` of a timestamp in seconds: whole hours mod 24. -/
def hourOf (t : ℚ) : ℚ := ((⌊t / 3600⌋ % 24 : ℤ) : ℚ)

/-- `size=int(0.05 * total_samples)` of the `np.random.choice` selecting the
outlier rows: float truncation of `0.05 * total`, i.e. `⌊total / 20⌋`. -/
def injectionCount (days samples_per_day : ℤ) : ℕ :=
  (days * samples_per_day).toNat / 20

/-- `anomaly_indices`: the rows the seeded `np.random.choice` selects for
outlier injection. -/
def injectedIndices (rs : RandomStream) (days samples_per_day : ℤ) : List ℕ :=
  rs.pick (days * samples_per_day).toNat (injectionCount days samples_per_day)

/-- Row `i`'s heart rate before injection:
`clip(70 + 10*sin((h-6)*pi/12) + normal(0,5), 50, 120)`. -/
def preHeartRate (sinC : ℚ → ℚ) (rs : RandomStream) (now : ℚ) (days : ℤ)
    (N i : ℕ) : ℚ :=
  clipQ 50 120 (70 + 10 * sinC (hourOf (tsAt now days N i) - 6) + rs.hrNoise i)

/-- Row `i`'s blood oxygen before injection: `clip(98 + normal(0,1), 85, 100)`. -/
def preBloodOxygen (rs : RandomStream) (i : ℕ) : ℚ :=
  clipQ 85 100 (98 + rs.o2Noise i)

/-- Row `i`'s steps: `max(0, 500 + 300*sin((h-12)*pi/12) + normal(0,100))`. -/
def preSteps (sinC : ℚ → ℚ) (rs : RandomStream) (now : ℚ) (days : ℤ)
    (N i : ℕ) : ℚ :=
  max 0 (500 + 300 * sinC (hourOf (tsAt now days N i) - 12) + rs.stepNoise i)

/-- Row `i`'s sleep quality:
`clip(7 + 2*sin((h-2)*pi/12) + normal(0,0.5), 0, 10)`. -/
def preSleep (sinC : ℚ → ℚ) (rs : RandomStream) (now : ℚ) (days : ℤ)
    (N i : ℕ) : ℚ :=
  clipQ 0 10 (7 + 2 * sinC (hourOf (tsAt now days N i) - 2) + rs.sleepNoise i)

/-- Row `i`'s stress: `clip(10 - sleep_quality + normal(0,1), 0, 10)`, using
the already clipped sleep quality. -/
def preStress (sinC : ℚ → ℚ) (rs : RandomStream) (now : ℚ) (days : ℤ)
    (N i : ℕ) : ℚ :=
  clipQ 0 10 (10 - preSleep sinC rs now days N i + rs.stressNoise i)

/-- Row `i`'s body temperature: `clip(98.6 + normal(0,0.5), 96, 102)`. -/
def preBodyTemp (rs : RandomStream) (i : ℕ) : ℚ :=
  clipQ 96 102 (493 / 5 + rs.tempNoise i)

/-- Heart rate after outlier injection:
`heart_rate[anomaly_indices] += np.random.choice([-20, 30], size=k)`.
No re-clamp follows the `+=`. -/
def postHeartRate (sinC : ℚ → ℚ) (rs : RandomStream) (now : ℚ) (days : ℤ)
    (N : ℕ) (idxs : List ℕ) (i : ℕ) : ℚ :=
  if i ∈ idxs then
    preHeartRate sinC rs now days N i + rs.hrShift (idxs.indexOf i)
  else preHeartRate sinC rs now days N i

/-- Blood oxygen after outlier injection:
`blood_oxygen[anomaly_indices] -= np.random.randint(5, 15, size=k)`.
No re-clamp follows the `-=`. -/
def postBloodOxygen (rs : RandomStream) (idxs : List ℕ) (i : ℕ) : ℚ :=
  if i ∈ idxs then preBloodOxygen rs i - (rs.o2Drop (idxs.indexOf i) : ℚ)
  else preBloodOxygen rs i

/-- Row `i` of the returned DataFrame: `heart_rate.astype(int)`,
`blood_oxygen.round(1)`, `steps.astype(int)`, `sleep_quality.round(1)`,
`stress_level.round(1)`, `body_temp.round(1)`. -/
def mkSample (sinC : ℚ → ℚ) (rs : RandomStream) (now : ℚ) (days : ℤ)
    (N : ℕ) (idxs : List ℕ) (i : ℕ) : Sample where
  timestamp := tsAt now days N i
  heart_rate := (truncQ (postHeartRate sinC rs now days N idxs i) : ℚ)
  blood_oxygen := round1 (postBloodOxygen rs idxs i)
  steps := (truncQ (preSteps sinC rs now days N i) : ℚ)
  sleep_quality := round1 (preSleep sinC rs now days N i)
  stress_level := round1 (preStress sinC rs now days N i)
  body_temperature := round1 (preBodyTemp rs i)

/-- `generate_sample_data(days, samples_per_day)` at wall-clock instant
`now`, consuming the seeded stream `rs` (fixed by `np.random.seed(42)`) and
circadian curve `sinC`. There is no parameter validation in the source: a
negative `total_samples = days * samples_per_day` aborts inside
`pd.date_range` with a `ValueError`; `total_samples = 0` yields an empty
DataFrame. -/
def generate_sample_data (sinC : ℚ → ℚ) (rs : RandomStream) (now : ℚ)
    (days samples_per_day : ℤ) : Except String (List Sample) :=
  if days * samples_per_day < 0 then
    .error "ValueError: periods must be a non-negative number"
  else
    .ok ((List.range (days * samples_per_day).toNat).map
      (mkSample sinC rs now days (days * samples_per_day).toNat
        (injectedIndices rs days samples_per_day)))

/-! ## Anomaly detector (`HealthMonitor.detect_anomalies`) -/

/-- A dataset as the detector sees it: the generated rows plus the derived
`anomaly` column (absent until `detect_anomalies` attaches it). -/
structure DataFrame where
  rows : List Sample
  anomaly : List Bool
deriving DecidableEq, Repr

/-- `data[features].values`: the six numeric feature columns, one row per
sample — the `anomaly` column is NOT among the extracted features. -/
def featureMatrix (rows : List Sample) : List (List ℚ) :=
  rows.map fun s =>
    [s.heart_rate, s.blood_oxygen, s.steps, s.sleep_quality, s.stress_level,
     s.body_temperature]

/-- `detect_anomalies(data)`: extract the feature matrix, then
`scaler.fit_transform` followed by
`IsolationForest(contamination=0.1, random_state=42).fit_predict`, and
overwrite `data['anomaly']` with the boolean labels. The scaler and the
seeded forest are deterministic functions of the matrix alone, abstracted
together as `pipeline`; the assignment `data['anomaly'] = (anomalies == -1)`
replaces any existing column. -/
def detect_anomalies (pipeline : List (List ℚ) → List Bool)
    (data : DataFrame) : DataFrame where
  rows := data.rows
  anomaly := pipeline (featureMatrix data.rows)

/-- The scenario sample of the spec: hr 70, SpO2 98, 1000 steps, sleep 8,
stress 3, temperature 98.6. -/
def scenarioSample : Sample :=
  { timestamp := 0, heart_rate := 70, blood_oxygen := 98, steps := 1000,
    sleep_quality := 8, stress_level := 3, body_temperature := 493 / 5 }

/-- A second in-domain sample with a different step count, for
dataset-comparison witnesses. -/
def altSample : Sample :=
  { timestamp := -3600, heart_rate := 60, blood_oxygen := 96, steps := 0,
    sleep_quality := 5, stress_level := 5, body_temperature := 98 }

/-- Degenerate circadian curve (`sin` stand-in) for concrete instantiations. -/
def sin0 : ℚ → ℚ := fun _ => 0

/-- A concrete random stream: all noise zero, `pick` selecting the first `k`
indices, shift +30, drop 5. -/
def zeroStream : RandomStream where
  hrNoise := fun _ => 0
  o2Noise := fun _ => 0
  stepNoise := fun _ => 0
  sleepNoise := fun _ => 0
  stressNoise := fun _ => 0
  tempNoise := fun _ => 0
  pick := fun _ k => List.range k
  hrShift := fun _ => 30
  o2Drop := fun _ => 5

/-- Like `zeroStream` but with a large positive heart-rate noise, driving the
pre-clip heart rate to its 120 cap before the +30 outlier shift. -/
def cexStream : RandomStream :=
  { zeroStream with hrNoise := fun _ => 1000 }

/-- The rows `generate_sample_data` produces for one day of 20 samples at
clock 0 with `cexStream` (row 0 is the injected outlier). -/
def rows20 : List Sample :=
  (List.range 20).map
    (mkSample sin0 cexStream 0 1 20 (injectedIndices cexStream 1 20))

/-! ## Helper lemmas -/

lemma clipQ_le (lo hi x : ℚ) : clipQ lo hi x ≤ hi := min_le_left _ _

lemma le_clipQ (lo hi x : ℚ) (h : lo ≤ hi) : lo ≤ clipQ lo hi x :=
  le_min h (le_max_left _ _)

lemma round1_mem (a b : ℤ) (x : ℚ) (h1 : (a : ℚ) ≤ x) (h2 : x ≤ (b : ℚ)) :
    (a : ℚ) ≤ round1 x ∧ round1 x ≤ (b : ℚ) := by
  have hlo : 10 * a ≤ round (10 * x) := by
    rw [round_eq, Int.le_floor]
    push_cast
    linarith
  have hhi : round (10 * x) ≤ 10 * b := by
    rw [round_eq]
    have : ⌊10 * x + 1 / 2⌋ < 10 * b + 1 := by
      rw [Int.floor_lt]
      push_cast
      linarith
    omega
  constructor
  · rw [round1, le_div_iff₀ (by norm_num : (0 : ℚ) < 10)]
    have : ((10 * a : ℤ) : ℚ) ≤ ((round (10 * x) : ℤ) : ℚ) := by exact_mod_cast hlo
    push_cast at this ⊢
    linarith
  · rw [round1, div_le_iff₀ (by norm_num : (0 : ℚ) < 10)]
    have : ((round (10 * x) : ℤ) : ℚ) ≤ ((10 * b : ℤ) : ℚ) := by exact_mod_cast hhi
    push_cast at this ⊢
    linarith

lemma truncQ_mem (a b : ℤ) (x : ℚ) (ha : 0 ≤ a) (h1 : (a : ℚ) ≤ x)
    (h2 : x ≤ (b : ℚ)) : (a : ℚ) ≤ (truncQ x : ℚ) ∧ (truncQ x : ℚ) ≤ (b : ℚ) := by
  have hx : 0 ≤ x := le_trans (by exact_mod_cast ha) h1
  have : truncQ x = ⌊x⌋ := by rw [truncQ, if_pos hx]
  rw [this]
  constructor
  · exact_mod_cast Int.le_floor.mpr h1
  · exact_mod_cast le_trans (Int.floor_mono h2) (le_of_eq (Int.floor_intCast b))

/-! ## Sub-score bounds -/

lemma hrScore_mem (s : Sample) : 0 ≤ hrScore s ∧ hrScore s ≤ 100 := by
  refine ⟨le_max_left _ _, max_le (by norm_num) ?_⟩
  nlinarith [abs_nonneg (s.heart_rate - 70)]

lemma oxygenScore_mem (s : Sample) (h : 85 ≤ s.blood_oxygen) :
    0 ≤ oxygenScore s ∧ oxygenScore s ≤ 100 :=
  ⟨le_min (by norm_num) (by nlinarith), min_le_left _ _⟩

lemma activityScore_mem (s : Sample) (h : 0 ≤ s.steps) :
    0 ≤ activityScore s ∧ activityScore s ≤ 100 :=
  ⟨le_min (by norm_num) (by positivity), min_le_left _ _⟩

lemma sleepScore_mem (s : Sample) (h1 : 0 ≤ s.sleep_quality)
    (h2 : s.sleep_quality ≤ 10) : 0 ≤ sleepScore s ∧ sleepScore s ≤ 100 := by
  unfold sleepScore; constructor <;> nlinarith

lemma stressScore_mem (s : Sample) (h1 : 0 ≤ s.stress_level)
    (h2 : s.stress_level ≤ 10) : 0 ≤ stressScore s ∧ stressScore s ≤ 100 := by
  unfold stressScore; constructor <;> nlinarith

lemma tempScore_mem (s : Sample) : 0 ≤ tempScore s ∧ tempScore s ≤ 100 := by
  refine ⟨le_max_left _ _, max_le (by norm_num) ?_⟩
  nlinarith [abs_nonneg (s.body_temperature - 493 / 5)]

lemma healthScoreOf_eq (s : Sample) :
    healthScoreOf s = round1 (2 / 10 * hrScore s + 2 / 10 * oxygenScore s
      + 15 / 100 * activityScore s + 2 / 10 * sleepScore s
      + 15 / 100 * stressScore s + 1 / 10 * tempScore s) := by
  simp [healthScoreOf, weights, subScores]
  ring_nf

/-- C3: for a non-empty dataset with in-domain latest sample,
`calculate_health_score` returns the weighted sum of the six sub-scores
(weights 0.20/0.20/0.15/0.20/0.15/0.10, summing to 1) rounded to one
decimal, never errs, and the value lies in [0, 100]. -/
theorem calculate_health_score_weighted_and_bounded
    (data : List Sample) (latest : Sample)
    (hlast : data.getLast? = some latest) (hdom : InDomain latest) :
    calculate_health_score data = .ok (healthScoreOf latest) ∧
    healthScoreOf latest = round1 (2 / 10 * hrScore latest
      + 2 / 10 * oxygenScore latest + 15 / 100 * activityScore latest
      + 2 / 10 * sleepScore latest + 15 / 100 * stressScore latest
      + 1 / 10 * tempScore latest) ∧
    weights.sum = 1 ∧
    0 ≤ healthScoreOf latest ∧ healthScoreOf latest ≤ 100 := by
  obtain ⟨d1, d2, d3, d4, d5, d6, d7, d8, d9, d10, d11⟩ := hdom
  have hhr := hrScore_mem latest
  have ho := oxygenScore_mem latest d3
  have ha := activityScore_mem latest d5
  have hs := sleepScore_mem latest d6 d7
  have hst := stressScore_mem latest d8 d9
  have ht := tempScore_mem latest
  have hsum : (0 : ℚ) ≤ 2 / 10 * hrScore latest + 2 / 10 * oxygenScore latest
      + 15 / 100 * activityScore latest + 2 / 10 * sleepScore latest
      + 15 / 100 * stressScore latest + 1 / 10 * tempScore latest := by
    nlinarith [hhr.1, ho.1, ha.1, hs.1, hst.1, ht.1]
  have hsum2 : 2 / 10 * hrScore latest + 2 / 10 * oxygenScore latest
      + 15 / 100 * activityScore latest + 2 / 10 * sleepScore latest
      + 15 / 100 * stressScore latest + 1 / 10 * tempScore latest ≤ (100 : ℚ) := by
    nlinarith [hhr.2, ho.2, ha.2, hs.2, hst.2, ht.2]
  have hb := round1_mem 0 100 _ (by exact_mod_cast hsum) (by exact_mod_cast hsum2)
  refine ⟨by simp [calculate_health_score, hlast], healthScoreOf_eq latest,
    by norm_num [weights], ?_, ?_⟩
  · rw [healthScoreOf_eq latest]; exact_mod_cast hb.1
  · rw [healthScoreOf_eq latest]; exact_mod_cast hb.2


lemma scenario_subscores :
    hrScore scenarioSample = 100 ∧ oxygenScore scenarioSample = 2499 / 25 ∧
    activityScore scenarioSample = 100 ∧ sleepScore scenarioSample = 80 ∧
    stressScore scenarioSample = 70 ∧ tempScore scenarioSample = 100 := by
  refine ⟨?_, ?_, ?_, ?_, ?_, ?_⟩ <;>
    norm_num [hrScore, oxygenScore, activityScore, sleepScore, stressScore,
      tempScore, scenarioSample, min_def, max_def]

lemma healthScoreOf_scenario : healthScoreOf scenarioSample = 183 / 2 := by
  have h : (List.zipWith (· * ·) weights (subScores scenarioSample)).sum
      = 91492 / 1000 := by
    obtain ⟨h1, h2, h3, h4, h5, h6⟩ := scenario_subscores
    norm_num [weights, subScores, h1, h2, h3, h4, h5, h6]
  rw [healthScoreOf, h, round1, round_eq]
  norm_num

lemma scenario_indomain : InDomain scenarioSample := by
  norm_num [InDomain, scenarioSample]

lemma scenario_score_eval : calculate_health_score [scenarioSample] = .ok (183 / 2) := by
  rw [show calculate_health_score [scenarioSample] = .ok (healthScoreOf scenarioSample)
    from rfl, healthScoreOf_scenario]

/-- Witness for C3 at the concrete singleton dataset `[scenarioSample]`. -/
theorem calculate_health_score_weighted_and_bounded_witness :
    calculate_health_score [scenarioSample] = .ok (healthScoreOf scenarioSample) ∧
    0 ≤ healthScoreOf scenarioSample ∧ healthScoreOf scenarioSample ≤ 100 := by
  have h := calculate_health_score_weighted_and_bounded [scenarioSample]
    scenarioSample rfl scenario_indomain
  exact ⟨h.1, h.2.2.2.1, h.2.2.2.2⟩

/-- C4 counterexample: at the scenario sample the score is 91.5, not in
[98, 100] — the sleep and stress sub-scores are 80 and 70, far from 100. -/
theorem scenario_score_not_excellent_range :
    calculate_health_score [scenarioSample] = .ok (183 / 2) ∧
    ¬ (98 : ℚ) ≤ 183 / 2 :=
  ⟨scenario_score_eval, by norm_num⟩

/-- C4 amended: at the scenario sample the heart-rate, oxygen, activity and
temperature sub-scores are (approximately) 100, but sleep is 80 and stress
is 70; the overall score is 91.5, which is below 98 yet still in the
dashboard's "Excellent" tier (score ≥ 80). -/
theorem scenario_score_value :
    hrScore scenarioSample = 100 ∧
    oxygenScore scenarioSample = 2499 / 25 ∧
    activityScore scenarioSample = 100 ∧
    sleepScore scenarioSample = 80 ∧
    stressScore scenarioSample = 70 ∧
    tempScore scenarioSample = 100 ∧
    calculate_health_score [scenarioSample] = .ok (183 / 2) ∧
    (80 : ℚ) ≤ 183 / 2 := by
  obtain ⟨h1, h2, h3, h4, h5, h6⟩ := scenario_subscores
  exact ⟨h1, h2, h3, h4, h5, h6, scenario_score_eval, by norm_num⟩

/-- C8 counterexample: no pair of datasets with the same latest sample gets
different scores — `calculate_health_score` reads nothing but `iloc[-1]`
(in particular no column mean), so the claimed population-relative pair
cannot exist. -/
theorem score_population_relative_refuted :
    ¬ ∃ (d₁ d₂ : List Sample) (s : Sample), d₁.getLast? = some s ∧
      d₂.getLast? = some s ∧ calculate_health_score d₁ ≠ calculate_health_score d₂ := by
  rintro ⟨d₁, d₂, s, h1, h2, hne⟩
  exact hne (by simp [calculate_health_score, h1, h2])

/-- C8 amended: `calculate_health_score` is a function of the latest sample
alone; the activity sub-score is `min(100, steps/10)`, absolute, and the
dataset's column means never enter the computation. -/
theorem calculate_health_score_latest_only
    (d₁ d₂ : List Sample) (s : Sample)
    (h1 : d₁.getLast? = some s) (h2 : d₂.getLast? = some s) :
    calculate_health_score d₁ = calculate_health_score d₂ ∧
    calculate_health_score d₁ = .ok (healthScoreOf s) := by
  constructor <;> simp [calculate_health_score, h1, h2]

/-- Witness for the amended C8: two concrete datasets with the same latest
sample but different mean step counts (1000 vs 500) receive equal scores. -/
theorem calculate_health_score_latest_only_witness :
    meanQ (List.map Sample.steps [scenarioSample]) = 1000 ∧
    meanQ (List.map Sample.steps [altSample, scenarioSample]) = 500 ∧
    calculate_health_score [scenarioSample]
      = calculate_health_score [altSample, scenarioSample] := by
  refine ⟨?_, ?_, ?_⟩
  · norm_num [meanQ, scenarioSample]
  · norm_num [meanQ, scenarioSample, altSample]
  · exact (calculate_health_score_latest_only [scenarioSample]
      [altSample, scenarioSample] scenarioSample rfl rfl).1

/-- C10: on an empty dataset both `calculate_health_score` and
`generate_health_insights` read `iloc[-1]` and fail with `IndexError`; on
any non-empty dataset both return a normal result. -/
theorem score_insights_empty_dataset_error :
    calculate_health_score []
      = .error "IndexError: single positional indexer is out-of-bounds" ∧
    generate_health_insights []
      = .error "IndexError: single positional indexer is out-of-bounds" ∧
    ∀ d : List Sample, d ≠ [] →
      (∃ v, calculate_health_score d = .ok v) ∧
      (∃ l, generate_health_insights d = .ok l) := by
  refine ⟨rfl, rfl, ?_⟩
  intro d hd
  obtain ⟨s, hs⟩ : ∃ s, d.getLast? = some s := by
    cases h : d.getLast? with
    | none =>
      exact absurd (List.getLast?_eq_none_iff.mp h) hd
    | some s => exact ⟨s, rfl⟩
  have h1 : calculate_health_score d = .ok (healthScoreOf s) := by
    simp [calculate_health_score, hs]
  have h2 : generate_health_insights d = .ok (hrInsights d s ++ o2Insights s
      ++ actInsights d s ++ sleepInsights s ++ stressInsights s) := by
    simp [generate_health_insights, hs]
  exact ⟨⟨_, h1⟩, ⟨_, h2⟩⟩

/-- Witness for C10 at the concrete non-empty dataset `[altSample]`. -/
theorem score_insights_empty_dataset_error_witness :
    (∃ v, calculate_health_score [altSample] = .ok v) ∧
    (∃ l, generate_health_insights [altSample] = .ok l) :=
  score_insights_empty_dataset_error.2.2 [altSample] (List.cons_ne_nil _ _)

/-- C6: `detect_anomalies` is idempotent — re-running it on its own output
reproduces the same `anomaly` column (the assignment overwrites the column,
the feature matrix is read from the six raw columns only, and the seeded
scaler-plus-forest pipeline is a deterministic function of that matrix) —
and it never alters the raw rows. -/
theorem detect_anomalies_idempotent
    (pipeline : List (List ℚ) → List Bool) (data : DataFrame) :
    (detect_anomalies pipeline (detect_anomalies pipeline data)).anomaly
      = (detect_anomalies pipeline data).anomaly ∧
    detect_anomalies pipeline (detect_anomalies pipeline data)
      = detect_anomalies pipeline data ∧
    (detect_anomalies pipeline data).rows = data.rows :=
  ⟨rfl, rfl, rfl⟩

/-! ## Insight-engine structure (claim C7) -/

lemma hrInsights_cases (data : List Sample) (latest : Sample) :
    hrInsights data latest = [] ∨ hrInsights data latest = [.hrElevated] ∨
    hrInsights data latest = [.hrGreat] := by
  unfold hrInsights; split_ifs <;> simp

lemma actInsights_cases (data : List Sample) (latest : Sample) :
    actInsights data latest = [] ∨ actInsights data latest = [.actLess] ∨
    actInsights data latest = [.actGreat] := by
  unfold actInsights; split_ifs <;> simp

lemma sleepInsights_cases (latest : Sample) :
    sleepInsights latest = [] ∨ sleepInsights latest = [.sleepPoor] ∨
    sleepInsights latest = [.sleepGreat] := by
  unfold sleepInsights; split_ifs <;> simp

lemma stressInsights_cases (latest : Sample) :
    stressInsights latest = [] ∨ stressInsights latest = [.stressHigh] ∨
    stressInsights latest = [.stressOk] := by
  unfold stressInsights; split_ifs <;> simp

/-- C7: on a non-empty dataset, the insight list is emitted in the fixed
category order heart → oxygen → activity → sleep → stress with at most one
message per category, and its oxygen entry is exactly one message: the
low-oxygen warning precisely when the latest `blood_oxygen` is below 95,
the healthy confirmation otherwise. -/
theorem generate_health_insights_per_category
    (data : List Sample) (latest : Sample)
    (hlast : data.getLast? = some latest) :
    ∃ l : List Insight,
      generate_health_insights data = .ok l ∧
      List.Pairwise (fun a b => a.category.idx < b.category.idx) l ∧
      (∀ c : Category, (l.filter (fun m => m.category = c)).length ≤ 1) ∧
      l.filter (fun m => m.category = Category.oxygen)
        = [if latest.blood_oxygen < 95 then Insight.o2Low else Insight.o2Healthy] := by
  have hok : generate_health_insights data = .ok (hrInsights data latest
      ++ o2Insights latest ++ actInsights data latest ++ sleepInsights latest
      ++ stressInsights latest) := by
    simp [generate_health_insights, hlast]
  refine ⟨_, hok, ?_⟩
  rcases hrInsights_cases data latest with h1 | h1 | h1 <;>
    rcases actInsights_cases data latest with h3 | h3 | h3 <;>
      rcases sleepInsights_cases latest with h4 | h4 | h4 <;>
        rcases stressInsights_cases latest with h5 | h5 | h5 <;>
          by_cases hb : latest.blood_oxygen < 95 <;>
            rw [h1, h3, h4, h5] <;>
              simp only [o2Insights, hb, if_true, if_false, ite_true, ite_false,
                eq_self_iff_true, not_false_iff] <;>
                decide

/-- Witness for C7 at the concrete dataset `[altSample]` (latest blood
oxygen 96, not below 95). -/
theorem generate_health_insights_per_category_witness :
    ∃ l : List Insight,
      generate_health_insights [altSample] = .ok l ∧
      List.Pairwise (fun a b => a.category.idx < b.category.idx) l ∧
      (∀ c : Category, (l.filter (fun m => m.category = c)).length ≤ 1) ∧
      l.filter (fun m => m.category = Category.oxygen)
        = [if altSample.blood_oxygen < 95 then Insight.o2Low else Insight.o2Healthy] :=
  generate_health_insights_per_category [altSample] altSample rfl


lemma rows20_length : rows20.length = 20 := by simp [rows20]

lemma cexStream_valid : ValidStream cexStream ((1 * 20 : ℤ)).toNat := by
  refine ⟨by decide, by decide, by decide, fun j => Or.inr rfl,
    fun j => ⟨le_refl 5, by norm_num [cexStream, zeroStream]⟩⟩

lemma truncQ_nonneg (x : ℚ) (hx : 0 ≤ x) : (0 : ℚ) ≤ (truncQ x : ℚ) := by
  rw [truncQ, if_pos hx]
  exact_mod_cast Int.le_floor.mpr (by exact_mod_cast hx)

lemma generate_sample_data_ok_iff (sinC : ℚ → ℚ) (rs : RandomStream)
    (now : ℚ) (days spd : ℤ) (rows : List Sample) :
    generate_sample_data sinC rs now days spd = .ok rows ↔
    ¬ days * spd < 0 ∧ rows = (List.range (days * spd).toNat).map
      (mkSample sinC rs now days (days * spd).toNat (injectedIndices rs days spd)) := by
  unfold generate_sample_data
  split_ifs with hc
  · simp [hc]
  · simp [hc, eq_comm]

lemma preHeartRate_mem (sinC : ℚ → ℚ) (rs : RandomStream) (now : ℚ)
    (days : ℤ) (N i : ℕ) :
    50 ≤ preHeartRate sinC rs now days N i ∧
    preHeartRate sinC rs now days N i ≤ 120 :=
  ⟨le_clipQ _ _ _ (by norm_num), clipQ_le _ _ _⟩

lemma preBloodOxygen_mem (rs : RandomStream) (i : ℕ) :
    85 ≤ preBloodOxygen rs i ∧ preBloodOxygen rs i ≤ 100 :=
  ⟨le_clipQ _ _ _ (by norm_num), clipQ_le _ _ _⟩

lemma postHeartRate_mem (sinC : ℚ → ℚ) (rs : RandomStream) (now : ℚ)
    (days : ℤ) (N : ℕ) (idxs : List ℕ) (i : ℕ)
    (hsh : ∀ j, rs.hrShift j = -20 ∨ rs.hrShift j = 30) :
    30 ≤ postHeartRate sinC rs now days N idxs i ∧
    postHeartRate sinC rs now days N idxs i ≤ 150 := by
  obtain ⟨h1, h2⟩ := preHeartRate_mem sinC rs now days N i
  unfold postHeartRate
  split_ifs with h
  · rcases hsh (idxs.indexOf i) with hs | hs <;> rw [hs] <;>
      constructor <;> linarith
  · constructor <;> linarith

lemma postBloodOxygen_mem (rs : RandomStream) (idxs : List ℕ) (i : ℕ)
    (hdr : ∀ j, 5 ≤ rs.o2Drop j ∧ rs.o2Drop j ≤ 14) :
    71 ≤ postBloodOxygen rs idxs i ∧ postBloodOxygen rs idxs i ≤ 100 := by
  obtain ⟨h1, h2⟩ := preBloodOxygen_mem rs i
  unfold postBloodOxygen
  split_ifs with h
  · obtain ⟨hd1, hd2⟩ := hdr (idxs.indexOf i)
    have hc1 : (5 : ℚ) ≤ (rs.o2Drop (idxs.indexOf i) : ℚ) := by exact_mod_cast hd1
    have hc2 : (rs.o2Drop (idxs.indexOf i) : ℚ) ≤ 14 := by exact_mod_cast hd2
    constructor <;> linarith
  · constructor <;> linarith

lemma mkSample_not_injected (sinC : ℚ → ℚ) (rs : RandomStream) (now : ℚ)
    (days : ℤ) (N : ℕ) (idxs : List ℕ) (i : ℕ) (h : i ∉ idxs) :
    mkSample sinC rs now days N idxs i = mkSample sinC rs now days N [] i := by
  simp [mkSample, postHeartRate, postBloodOxygen, h]

lemma mkSample_injected (sinC : ℚ → ℚ) (rs : RandomStream) (now : ℚ)
    (days : ℤ) (N : ℕ) (idxs : List ℕ) (i : ℕ) (h : i ∈ idxs) :
    mkSample sinC rs now days N idxs i =
      { mkSample sinC rs now days N [] i with
        heart_rate := (truncQ (preHeartRate sinC rs now days N i
          + rs.hrShift (idxs.indexOf i)) : ℚ),
        blood_oxygen := round1 (preBloodOxygen rs i
          - (rs.o2Drop (idxs.indexOf i) : ℚ)) } := by
  simp [mkSample, postHeartRate, postBloodOxygen, h]

/-- C2 amended: in every generated dataset, `steps` is non-negative,
`sleep_quality` and `stress_level` lie in [0,10] and `body_temperature` in
[96,102] for every row; `heart_rate` lies in [50,120] and `blood_oxygen` in
[85,100] for every row NOT selected for outlier injection, while injected
rows are only guaranteed `heart_rate ∈ [30,150]` and
`blood_oxygen ∈ [71,100]` — the source never re-clamps after the outlier
shift/drop. -/
theorem generate_sample_data_bounds
    (sinC : ℚ → ℚ) (rs : RandomStream) (now : ℚ) (days spd : ℤ)
    (rows : List Sample)
    (hok : generate_sample_data sinC rs now days spd = .ok rows)
    (hvs : ValidStream rs (days * spd).toNat)
    (i : ℕ) (hi : i < rows.length) :
    (0 ≤ (rows.get ⟨i, hi⟩).steps ∧
     0 ≤ (rows.get ⟨i, hi⟩).sleep_quality ∧ (rows.get ⟨i, hi⟩).sleep_quality ≤ 10 ∧
     0 ≤ (rows.get ⟨i, hi⟩).stress_level ∧ (rows.get ⟨i, hi⟩).stress_level ≤ 10 ∧
     96 ≤ (rows.get ⟨i, hi⟩).body_temperature ∧
       (rows.get ⟨i, hi⟩).body_temperature ≤ 102 ∧
     30 ≤ (rows.get ⟨i, hi⟩).heart_rate ∧ (rows.get ⟨i, hi⟩).heart_rate ≤ 150 ∧
     71 ≤ (rows.get ⟨i, hi⟩).blood_oxygen ∧ (rows.get ⟨i, hi⟩).blood_oxygen ≤ 100) ∧
    (i ∉ injectedIndices rs days spd →
      50 ≤ (rows.get ⟨i, hi⟩).heart_rate ∧ (rows.get ⟨i, hi⟩).heart_rate ≤ 120 ∧
      85 ≤ (rows.get ⟨i, hi⟩).blood_oxygen ∧ (rows.get ⟨i, hi⟩).blood_oxygen ≤ 100) := by
  obtain ⟨-, hrows⟩ := (generate_sample_data_ok_iff sinC rs now days spd rows).mp hok
  obtain ⟨-, -, -, hsh, hdr⟩ := hvs
  subst hrows
  have hget : ((List.range (days * spd).toNat).map
      (mkSample sinC rs now days (days * spd).toNat
        (injectedIndices rs days spd))).get ⟨i, hi⟩
      = mkSample sinC rs now days (days * spd).toNat
        (injectedIndices rs days spd) i := by
    simp
  rw [hget]
  have hsteps : 0 ≤ (mkSample sinC rs now days (days * spd).toNat
      (injectedIndices rs days spd) i).steps :=
    truncQ_nonneg _ (le_max_left _ _)
  have hsleep := round1_mem 0 10 (preSleep sinC rs now days (days * spd).toNat i)
    (by exact_mod_cast le_clipQ _ _ _ (by norm_num))
    (by exact_mod_cast clipQ_le _ _ _)
  have hstress := round1_mem 0 10 (preStress sinC rs now days (days * spd).toNat i)
    (by exact_mod_cast le_clipQ _ _ _ (by norm_num))
    (by exact_mod_cast clipQ_le _ _ _)
  have htemp := round1_mem 96 102 (preBodyTemp rs i)
    (by exact_mod_cast le_clipQ _ _ _ (by norm_num))
    (by exact_mod_cast clipQ_le _ _ _)
  have hhr := postHeartRate_mem sinC rs now days (days * spd).toNat
    (injectedIndices rs days spd) i hsh
  have hhrt := truncQ_mem 30 150 _ (by norm_num)
    (by exact_mod_cast hhr.1) (by exact_mod_cast hhr.2)
  have ho2 := postBloodOxygen_mem rs (injectedIndices rs days spd) i hdr
  have ho2r := round1_mem 71 100 _ (by exact_mod_cast ho2.1)
    (by exact_mod_cast ho2.2)
  constructor
  · simp only [mkSample]
    exact ⟨truncQ_nonneg _ (le_max_left _ _),
      by exact_mod_cast hsleep.1, by exact_mod_cast hsleep.2,
      by exact_mod_cast hstress.1, by exact_mod_cast hstress.2,
      by exact_mod_cast htemp.1, by exact_mod_cast htemp.2,
      by exact_mod_cast hhrt.1, by exact_mod_cast hhrt.2,
      by exact_mod_cast ho2r.1, by exact_mod_cast ho2r.2⟩
  · intro hni
    simp only [mkSample, postHeartRate, postBloodOxygen, if_neg hni]
    have hpre := preHeartRate_mem sinC rs now days (days * spd).toNat i
    have hpo := preBloodOxygen_mem rs i
    have h1 := truncQ_mem 50 120
      (preHeartRate sinC rs now days (days * spd).toNat i) (by norm_num)
      (by exact_mod_cast hpre.1) (by exact_mod_cast hpre.2)
    have h2 := round1_mem 85 100 (preBloodOxygen rs i)
      (by exact_mod_cast hpo.1) (by exact_mod_cast hpo.2)
    exact ⟨by exact_mod_cast h1.1, by exact_mod_cast h1.2,
      by exact_mod_cast h2.1, by exact_mod_cast h2.2⟩

/-- Witness for the amended C2 at the concrete run `rows20`, row 5 (not an
injected index). -/
theorem generate_sample_data_bounds_witness :
    (0 ≤ (rows20.get ⟨5, by rw [rows20_length]; norm_num⟩).steps ∧
     0 ≤ (rows20.get ⟨5, by rw [rows20_length]; norm_num⟩).sleep_quality ∧
     (rows20.get ⟨5, by rw [rows20_length]; norm_num⟩).sleep_quality ≤ 10 ∧
     0 ≤ (rows20.get ⟨5, by rw [rows20_length]; norm_num⟩).stress_level ∧
     (rows20.get ⟨5, by rw [rows20_length]; norm_num⟩).stress_level ≤ 10 ∧
     96 ≤ (rows20.get ⟨5, by rw [rows20_length]; norm_num⟩).body_temperature ∧
     (rows20.get ⟨5, by rw [rows20_length]; norm_num⟩).body_temperature ≤ 102 ∧
     30 ≤ (rows20.get ⟨5, by rw [rows20_length]; norm_num⟩).heart_rate ∧
     (rows20.get ⟨5, by rw [rows20_length]; norm_num⟩).heart_rate ≤ 150 ∧
     71 ≤ (rows20.get ⟨5, by rw [rows20_length]; norm_num⟩).blood_oxygen ∧
     (rows20.get ⟨5, by rw [rows20_length]; norm_num⟩).blood_oxygen ≤ 100) ∧
    (5 ∉ injectedIndices cexStream 1 20 →
      50 ≤ (rows20.get ⟨5, by rw [rows20_length]; norm_num⟩).heart_rate ∧
      (rows20.get ⟨5, by rw [rows20_length]; norm_num⟩).heart_rate ≤ 120 ∧
      85 ≤ (rows20.get ⟨5, by rw [rows20_length]; norm_num⟩).blood_oxygen ∧
      (rows20.get ⟨5, by rw [rows20_length]; norm_num⟩).blood_oxygen ≤ 100) :=
  generate_sample_data_bounds sin0 cexStream 0 1 20 rows20 rfl cexStream_valid
    5 (by rw [rows20_length]; norm_num)

/-- C2 counterexample: in the concrete run `rows20` the injected row 0 has
`heart_rate = 150`, outside the claimed domain [50, 120] — the +30 outlier
shift is applied after clipping and is never re-clamped. -/
theorem generated_heart_rate_exceeds_domain :
    generate_sample_data sin0 cexStream 0 1 20 = .ok rows20 ∧
    0 ∈ injectedIndices cexStream 1 20 ∧
    (rows20.get ⟨0, by rw [rows20_length]; norm_num⟩).heart_rate = 150 ∧
    ¬ (rows20.get ⟨0, by rw [rows20_length]; norm_num⟩).heart_rate ≤ 120 := by
  have hidx : injectedIndices cexStream 1 20 = [0] := rfl
  have hget : rows20.get ⟨0, by rw [rows20_length]; norm_num⟩
      = mkSample sin0 cexStream 0 1 20 (injectedIndices cexStream 1 20) 0 := by
    simp [rows20]
  have hpost : postHeartRate sin0 cexStream 0 1 20
      (injectedIndices cexStream 1 20) 0 = 150 := by
    rw [hidx]
    simp only [postHeartRate, preHeartRate, cexStream, zeroStream, sin0, clipQ,
      List.mem_singleton, List.indexOf]
    norm_num [min_def, max_def]
  have hhr : (rows20.get ⟨0, by rw [rows20_length]; norm_num⟩).heart_rate = 150 := by
    rw [hget]
    show (truncQ (postHeartRate sin0 cexStream 0 1 20
      (injectedIndices cexStream 1 20) 0) : ℚ) = 150
    rw [hpost]
    norm_num [truncQ]
  exact ⟨rfl, by rw [hidx]; exact List.mem_singleton.mpr rfl, hhr,
    by rw [hhr]; norm_num⟩

/-- C5 amended: the injection step selects `int(0.05 * total_samples)` =
`⌊total/20⌋` distinct row indices (NOT `⌈0.05·total⌉`, though the count is
within 1 of `round(0.05·total)`), all below `total`; every selected row gets
its pre-clip heart rate shifted by exactly −20 or +30 and its blood oxygen
decreased by an integer in [5, 14] (NumPy's `randint(5, 15)` excludes 15);
rows not selected are produced exactly as without injection. -/
theorem generate_sample_data_injection
    (sinC : ℚ → ℚ) (rs : RandomStream) (now : ℚ) (days spd : ℤ)
    (rows : List Sample)
    (hok : generate_sample_data sinC rs now days spd = .ok rows)
    (hvs : ValidStream rs (days * spd).toNat) :
    (injectedIndices rs days spd).length = injectionCount days spd ∧
    (injectedIndices rs days spd).Nodup ∧
    (∀ j ∈ injectedIndices rs days spd, j < (days * spd).toNat) ∧
    rows.length = (days * spd).toNat ∧
    ∀ i (hi : i < rows.length),
      (i ∉ injectedIndices rs days spd →
        rows.get ⟨i, hi⟩
          = mkSample sinC rs now days (days * spd).toNat [] i) ∧
      (i ∈ injectedIndices rs days spd →
        ∃ (sh : ℚ) (dr : ℕ), (sh = -20 ∨ sh = 30) ∧ 5 ≤ dr ∧ dr ≤ 14 ∧
          rows.get ⟨i, hi⟩
            = { mkSample sinC rs now days (days * spd).toNat [] i with
                heart_rate := (truncQ (preHeartRate sinC rs now days
                  (days * spd).toNat i + sh) : ℚ),
                blood_oxygen := round1 (preBloodOxygen rs i - (dr : ℚ)) }) := by
  obtain ⟨-, hrows⟩ := (generate_sample_data_ok_iff sinC rs now days spd rows).mp hok
  obtain ⟨hlen, hnd, hlt, hsh, hdr⟩ := hvs
  refine ⟨hlen, hnd, hlt, by rw [hrows]; simp, ?_⟩
  intro i hi
  have hget : rows.get ⟨i, hi⟩
      = mkSample sinC rs now days (days * spd).toNat
        (injectedIndices rs days spd) i := by
    subst hrows; simp
  constructor
  · intro hni
    rw [hget]
    exact mkSample_not_injected sinC rs now days (days * spd).toNat _ i hni
  · intro hmem
    refine ⟨rs.hrShift ((injectedIndices rs days spd).indexOf i),
      rs.o2Drop ((injectedIndices rs days spd).indexOf i),
      hsh _, (hdr _).1, (hdr _).2, ?_⟩
    rw [hget]
    exact mkSample_injected sinC rs now days (days * spd).toNat _ i hmem

/-- Witness for the amended C5 at the concrete run `rows20`: one index is
selected ([0]); row 5 equals the uninjected baseline and row 0 carries a
−20/+30 heart-rate shift and a 5..14 oxygen drop. -/
theorem generate_sample_data_injection_witness :
    (injectedIndices cexStream 1 20).length = injectionCount 1 20 ∧
    (injectedIndices cexStream 1 20).Nodup ∧
    (∀ j ∈ injectedIndices cexStream 1 20, j < ((1 * 20 : ℤ)).toNat) ∧
    rows20.length = ((1 * 20 : ℤ)).toNat ∧
    (5 ∉ injectedIndices cexStream 1 20 →
      rows20.get ⟨5, by rw [rows20_length]; norm_num⟩
        = mkSample sin0 cexStream 0 1 ((1 * 20 : ℤ)).toNat [] 5) ∧
    (0 ∈ injectedIndices cexStream 1 20 →
      ∃ (sh : ℚ) (dr : ℕ), (sh = -20 ∨ sh = 30) ∧ 5 ≤ dr ∧ dr ≤ 14 ∧
        rows20.get ⟨0, by rw [rows20_length]; norm_num⟩
          = { mkSample sin0 cexStream 0 1 ((1 * 20 : ℤ)).toNat [] 0 with
              heart_rate := (truncQ (preHeartRate sin0 cexStream 0 1
                ((1 * 20 : ℤ)).toNat 0 + sh) : ℚ),
              blood_oxygen := round1 (preBloodOxygen cexStream 0 - (dr : ℚ)) }) := by
  have h := generate_sample_data_injection sin0 cexStream 0 1 20 rows20 rfl
    cexStream_valid
  exact ⟨h.1, h.2.1, h.2.2.1, h.2.2.2.1,
    (h.2.2.2.2 5 (by rw [rows20_length]; norm_num)).1,
    (h.2.2.2.2 0 (by rw [rows20_length]; norm_num)).2⟩

/-- C5 counterexample: for `total_samples = 30` (one day at 30 samples/day)
the source selects `int(0.05 * 30) = 1` index, not `⌈0.05 · 30⌉ = 2` as
claimed. -/
theorem injectionCount_floor_not_ceil :
    injectionCount 1 30 = 1 ∧ ⌈(5 : ℚ) / 100 * 30⌉ = 2 ∧
    (injectionCount 1 30 : ℤ) ≠ ⌈(5 : ℚ) / 100 * 30⌉ := by
  have h1 : injectionCount 1 30 = 1 := rfl
  have h2 : ⌈(5 : ℚ) / 100 * 30⌉ = 2 := by
    rw [show (5 : ℚ) / 100 * 30 = 3 / 2 by norm_num, Int.ceil_eq_iff]
    norm_num
  refine ⟨h1, h2, ?_⟩
  rw [h1, h2]
  norm_num

/-- C1 amended: `generate_sample_data` takes no seed parameter — it reseeds
NumPy to 42 internally, fixing the pseudo-random stream — and for fixed
`(days, samples_per_day)` its output is a function of the `datetime.now()`
instant: two calls observing the same clock value return identical datasets. -/
theorem generate_sample_data_deterministic_same_clock
    (sinC : ℚ → ℚ) (rs : RandomStream) (now₁ now₂ : ℚ) (days spd : ℤ)
    (h : now₁ = now₂) :
    generate_sample_data sinC rs now₁ days spd
      = generate_sample_data sinC rs now₂ days spd := by rw [h]

/-- Witness for the amended C1 at concrete inputs. -/
theorem generate_sample_data_deterministic_same_clock_witness :
    generate_sample_data sin0 zeroStream 86400 30 24
      = generate_sample_data sin0 zeroStream 86400 30 24 :=
  generate_sample_data_deterministic_same_clock sin0 zeroStream 86400 86400
    30 24 rfl

/-- C1 counterexample: two calls with identical `(days, samples_per_day)`
and the identical seeded stream, made at different `datetime.now()` instants
(time 0 and one day later), return different datasets — the timestamp column
tracks the wall clock, so repeated calls are not byte-identical. -/
theorem generate_sample_data_clock_dependent :
    generate_sample_data sin0 zeroStream 0 1 1
      ≠ generate_sample_data sin0 zeroStream 86400 1 1 := by
  intro h
  have h1 : generate_sample_data sin0 zeroStream 0 1 1
      = .ok [mkSample sin0 zeroStream 0 1 1 (injectedIndices zeroStream 1 1) 0] :=
    rfl
  have h2 : generate_sample_data sin0 zeroStream 86400 1 1
      = .ok [mkSample sin0 zeroStream 86400 1 1 (injectedIndices zeroStream 1 1) 0] :=
    rfl
  rw [h1, h2] at h
  have h3 : mkSample sin0 zeroStream 0 1 1 (injectedIndices zeroStream 1 1) 0
      = mkSample sin0 zeroStream 86400 1 1 (injectedIndices zeroStream 1 1) 0 := by
    simpa using h
  have h4 := congrArg Sample.timestamp h3
  simp only [mkSample] at h4
  norm_num [tsAt] at h4

/-- C9 amended: `generate_sample_data` performs no parameter validation.
A call with `days * samples_per_day = 0` (e.g. `days = 0`) returns an empty
dataset normally, and only a negative `days * samples_per_day` aborts — with
a pandas `ValueError` from `date_range`, not a dedicated `InvalidParameter`
report. The documented contract `days ≥ 1, samples_per_day ≥ 1` is not
enforced anywhere. -/
theorem generate_sample_data_no_validation
    (sinC : ℚ → ℚ) (rs : RandomStream) (now : ℚ) (days spd : ℤ)
    (h : days * spd ≤ 0) :
    generate_sample_data sinC rs now days spd =
      if days * spd < 0 then
        .error "ValueError: periods must be a non-negative number"
      else .ok [] := by
  by_cases hlt : days * spd < 0
  · simp [generate_sample_data, hlt]
  · have h0 : days * spd = 0 := le_antisymm h (not_lt.mp hlt)
    simp [generate_sample_data, h0]

/-- Witness for the amended C9: `days = 0` yields `ok []`, and
`samples_per_day = -24` yields the library error. -/
theorem generate_sample_data_no_validation_witness :
    generate_sample_data sin0 zeroStream 0 0 24 = .ok [] ∧
    generate_sample_data sin0 zeroStream 0 1 (-24)
      = .error "ValueError: periods must be a non-negative number" := by
  constructor
  · have h := generate_sample_data_no_validation sin0 zeroStream 0 0 24
      (by norm_num)
    simpa using h
  · have h := generate_sample_data_no_validation sin0 zeroStream 0 1 (-24)
      (by norm_num)
    simpa using h

/-- C9 counterexample: the call `generate_sample_data(days=0,
samples_per_day=24)` succeeds and returns an (empty) dataset instead of
failing with `InvalidParameter`, although `days ≤ 0`. -/
theorem generate_accepts_day_zero :
    generate_sample_data sin0 zeroStream 0 0 24 = .ok [] ∧ (0 : ℤ) ≤ 0 := by
  constructor
  · simp [generate_sample_data]
  · norm_num
